import Mathlib

/-!
Shallow embedding of the nutrition-tracker core (`src/main.py`): the SQLite
schema (`foods`, `logs`, `goals`), the five tool operations and the startup
initialization, modelled as pure functions over an explicit store.

Modelling decisions, each tied to a line of the source:
* `foods.id` / `logs.id` are `INTEGER PRIMARY KEY AUTOINCREMENT`: ids are
  assigned from a strictly increasing counter and never reused, so the store
  carries `next_food_id` / `next_log_id`.
* `add_food` runs `INSERT OR REPLACE INTO foods (name, ...)` (main.py:105-112):
  SQLite REPLACE deletes every row conflicting on the UNIQUE `name` column and
  inserts a fresh row, which receives a fresh autoincrement id.  Foreign keys
  are not enabled, so `logs` rows pointing at the deleted id simply dangle.
* SQL `REAL` columns (`protein`, `carbs`, `fat`, `quantity`) are modelled as
  `Rat`; `INTEGER` columns as `Int`.
* `date.today().isoformat()` is passed in as an explicit `today : String`.
* Python dicts preserve insertion order, so the `meals` mapping built by
  `get_meals` (main.py:174-188 via `setdefault`/`append`) is an association
  list with append-at-end semantics (`insertEntry`).
-/

namespace CalorieTracker

/-- A row of the `foods` table (main.py:45-54). -/
structure FoodRow where
  id : Nat
  name : String
  calories : Int
  protein : Rat
  carbs : Rat
  fat : Rat
deriving DecidableEq

/-- A row of the `logs` table (main.py:58-67); `meal` is a nullable TEXT column. -/
structure LogRow where
  id : Nat
  food_id : Nat
  quantity : Rat
  log_date : String
  meal : Option String
deriving DecidableEq

/-- A row of the `goals` table (main.py:79-84); `CHECK (id = 1)` plus the
primary key force at most one row, with id 1. -/
structure GoalRow where
  id : Nat
  daily_calories : Int
deriving DecidableEq

/-- The persistent store: the three tables plus the autoincrement counters. -/
structure Store where
  foods : List FoodRow
  logs : List LogRow
  goals : List GoalRow
  next_food_id : Nat
  next_log_id : Nat
deriving DecidableEq

/-- A fresh database: empty tables, SQLite rowids start at 1. -/
def Store.empty : Store := ⟨[], [], [], 1, 1⟩

/-- `init_db` (main.py:41-91).  Table creation is `IF NOT EXISTS` (a no-op on
the modelled store, which always has the three tables) and the `meal` column
migration is additive and swallowed; the only data effect is
`INSERT OR IGNORE INTO goals (id, daily_calories) VALUES (1, 2000)`
(main.py:86-88), which inserts only when no row with id 1 exists. -/
def init_db (s : Store) : Store :=
  if s.goals.any (fun g => g.id == 1) then s
  else { s with goals := s.goals ++ [⟨1, 2000⟩] }

/-- The dict returned by `add_food` (main.py:114-118): status, food name and
database path only. -/
structure AddFoodResult where
  status : String
  food : String
  db_path : String
deriving DecidableEq

/-- `add_food` (main.py:95-118).  `INSERT OR REPLACE INTO foods
(name, calories, protein, carbs, fat) VALUES (?,?,?,?,?)`: rows conflicting on
the UNIQUE `name` are deleted, and the inserted row gets a fresh autoincrement
id because the statement supplies no id.  `db_path` is the storage path
resolved at startup (main.py:8-32), outside the core, hence a parameter. -/
def add_food (s : Store) (name : String) (calories : Int)
    (protein carbs fat : Rat) (db_path : String) : AddFoodResult × Store :=
  let kept := s.foods.filter (fun f => f.name != name)
  let row : FoodRow := ⟨s.next_food_id, name, calories, protein, carbs, fat⟩
  (⟨"ok", name, db_path⟩,
   { s with foods := kept ++ [row], next_food_id := s.next_food_id + 1 })

/-- The dict returned by `log_food` (main.py:130, 141-146): either the ok
shape `{status, food, quantity, meal}` or the error shape `{status, message}`. -/
inductive LogFoodResult where
  | ok (food : String) (quantity : Rat) (meal : String)
  | err (message : String)
deriving DecidableEq

/-- The `status` field of a `log_food` result. -/
def LogFoodResult.status : LogFoodResult → String
  | .ok _ _ _ => "ok"
  | .err _ => "error"

/-- `SELECT id FROM foods WHERE name = ?` + `fetchone()` (main.py:124-128). -/
def findFood (foods : List FoodRow) (name : String) : Option FoodRow :=
  foods.find? (fun f => f.name == name)

/-- `log_food` (main.py:120-146): resolve the name; if absent return the error
dict and write nothing; otherwise insert one `logs` row with the resolved
food's id, the given quantity and meal, and `log_date = date.today()`. -/
def log_food (s : Store) (today : String) (name : String) (quantity : Rat)
    (meal : String) : LogFoodResult × Store :=
  match findFood s.foods name with
  | none => (.err "Food not found", s)
  | some f =>
      let row : LogRow := ⟨s.next_log_id, f.id, quantity, today, some meal⟩
      (.ok name quantity meal,
       { s with logs := s.logs ++ [row], next_log_id := s.next_log_id + 1 })

/-- One element of a meal group as built by `get_meals` (main.py:178-187). -/
structure EntryView where
  log_id : Nat
  food : String
  quantity : Rat
  calories_per_serving : Int
  protein_per_serving : Rat
  carbs_per_serving : Rat
  fat_per_serving : Rat
  calories_total : Rat
deriving DecidableEq

/-- The view of one joined (log, food) row, with
`calories_total = calories * quantity` (main.py:186). -/
def entryView (l : LogRow) (f : FoodRow) : EntryView :=
  ⟨l.id, f.name, l.quantity, f.calories, f.protein, f.carbs, f.fat,
   (f.calories : Rat) * l.quantity⟩

/-- `r["meal"] or "unspecified"` (main.py:176): both SQL NULL and the empty
string are falsy in Python and map to `"unspecified"`. -/
def mealKey : Option String → String
  | none => "unspecified"
  | some m => if m == "" then "unspecified" else m

/-- The row set of `FROM logs l JOIN foods f ON l.food_id = f.id WHERE
l.log_date = ?` (main.py:156-172 and main.py:210-223): logs filtered by date,
inner-joined to the foods whose id matches. -/
def joinDate (s : Store) (d : String) : List (LogRow × FoodRow) :=
  (s.logs.filter (fun l => l.log_date == d)).flatMap
    (fun l => (s.foods.filter (fun f => f.id == l.food_id)).map (fun f => (l, f)))

/-- `meals.setdefault(meal_name, []).append(entry)` on an insertion-ordered
dict (main.py:177): append to the existing group, or add a new group at the
end. -/
def insertEntry (gs : List (String × List EntryView)) (k : String)
    (e : EntryView) : List (String × List EntryView) :=
  match gs with
  | [] => [(k, [e])]
  | (k0, es) :: rest =>
      if k0 == k then (k0, es ++ [e]) :: rest
      else (k0, es) :: insertEntry rest k e

/-- The grouping loop of `get_meals` (main.py:174-188). -/
def buildMeals (rows : List (LogRow × FoodRow)) :
    List (String × List EntryView) :=
  rows.foldl (fun gs r => insertEntry gs (mealKey r.1.meal) (entryView r.1 r.2)) []

/-- The dict returned by `get_meals` (main.py:190). -/
structure GetMealsResult where
  date : String
  meals : List (String × List EntryView)
deriving DecidableEq

/-- `get_meals` (main.py:149-190).  `date_str: str = None` with
`if not date_str: date_str = date.today().isoformat()`: both an absent
argument and the empty string fall back to today. -/
def get_meals (s : Store) (today : String) (date_str : Option String) :
    GetMealsResult × Store :=
  let d := match date_str with
    | none => today
    | some ds => if ds == "" then today else ds
  (⟨d, buildMeals (joinDate s d)⟩, s)

/-- The dict returned by `set_daily_calorie_goal` (main.py:201-204). -/
structure SetGoalResult where
  status : String
  daily_calories : Int
deriving DecidableEq

/-- `set_daily_calorie_goal` (main.py:192-204):
`UPDATE goals SET daily_calories = ? WHERE id = 1` updates in place whatever
rows have id 1 and inserts nothing. -/
def set_daily_calorie_goal (s : Store) (calories : Int) :
    SetGoalResult × Store :=
  (⟨"ok", calories⟩,
   { s with goals := s.goals.map (fun g =>
       if g.id == 1 then { g with daily_calories := calories } else g) })

/-- The `totals` accumulator of `today_summary` (main.py:225). -/
structure Totals where
  calories : Rat
  protein : Rat
  carbs : Rat
  fat : Rat
deriving DecidableEq

/-- The dict returned by `today_summary` (main.py:237-241). -/
structure SummaryResult where
  totals : Totals
  goal : Int
  remaining_calories : Rat
deriving DecidableEq

/-- The fold of `today_summary` (main.py:227-231):
`totals[field] += row[field] * row["quantity"]` over the joined rows. -/
def sumTotals (rows : List (LogRow × FoodRow)) : Totals :=
  rows.foldl (fun t r =>
    ⟨t.calories + (r.2.calories : Rat) * r.1.quantity,
     t.protein + r.2.protein * r.1.quantity,
     t.carbs + r.2.carbs * r.1.quantity,
     t.fat + r.2.fat * r.1.quantity⟩) ⟨0, 0, 0, 0⟩

/-- `today_summary` (main.py:206-241): sum over today's joined rows, read the
goal row (`SELECT daily_calories FROM goals WHERE id = 1` + `fetchone()`,
main.py:233-235 — indexing the fetched row faults if no row exists, modelled
as `none`), and report `remaining_calories = goal - totals["calories"]`. -/
def today_summary (s : Store) (today : String) :
    Option SummaryResult × Store :=
  let totals := sumTotals (joinDate s today)
  match s.goals.find? (fun g => g.id == 1) with
  | none => (none, s)
  | some g =>
      (some ⟨totals, g.daily_calories,
             (g.daily_calories : Rat) - totals.calories⟩, s)

/-! ### Spec-side definitions

Sums and grouping descriptions written from the specification's wording, to
compare with the fold-based code above. -/

/-- Sum of `calories * quantity` over a list of joined rows. -/
def caloriesSum (rows : List (LogRow × FoodRow)) : Rat :=
  (rows.map (fun r => (r.2.calories : Rat) * r.1.quantity)).sum

/-- Sum of `protein * quantity` over a list of joined rows. -/
def proteinSum (rows : List (LogRow × FoodRow)) : Rat :=
  (rows.map (fun r => r.2.protein * r.1.quantity)).sum

/-- Sum of `carbs * quantity` over a list of joined rows. -/
def carbsSum (rows : List (LogRow × FoodRow)) : Rat :=
  (rows.map (fun r => r.2.carbs * r.1.quantity)).sum

/-- Sum of `fat * quantity` over a list of joined rows. -/
def fatSum (rows : List (LogRow × FoodRow)) : Rat :=
  (rows.map (fun r => r.2.fat * r.1.quantity)).sum

/-- Lookup of the first group with the given key in a grouped result. -/
def groupEntries : List (String × List EntryView) → String → List EntryView
  | [], _ => []
  | (k0, es) :: rest, k => if k0 == k then es else groupEntries rest k

/-- Keys in order of first occurrence, accumulator form. -/
def firstOccur (acc : List String) : List String → List String
  | [] => acc
  | k :: ks => firstOccur (if k ∈ acc then acc else acc ++ [k]) ks

/-- The distinct elements of a list, in order of first occurrence. -/
def firstOccurrences (l : List String) : List String := firstOccur [] l

/-- A small populated store shared by several witnesses: one food, no logs,
the default goal. -/
def wStore : Store := ⟨[⟨1, "apple", 100, 1, 2, 3⟩], [], [⟨1, 2000⟩], 2, 1⟩

/-- Store for the C4 witness: the wStore food plus two logged entries for
2024-01-01 (2 servings at lunch, 3 at dinner). -/
def c4Store : Store :=
  (log_food (log_food wStore "2024-01-01" "apple" 2 "lunch").2
    "2024-01-01" "apple" 3 "dinner").2

/-- Store for the C5 witness: two foods; 2 servings of eggs at breakfast and
1 + 2 servings of rice at lunch, all logged for 2024-01-01. -/
def c5Store : Store :=
  (log_food (log_food (log_food
      (add_food (add_food (init_db Store.empty) "eggs" 150 12 1 10 "p").2
        "rice" 200 4 45 1 "p").2
      "2024-01-01" "eggs" 2 "breakfast").2
    "2024-01-01" "rice" 1 "lunch").2
    "2024-01-01" "rice" 2 "lunch").2

/-- Concrete replay for claim C2: register "apple" (100 kcal per serving),
then log 2 servings of it on 2024-01-01 as lunch. -/
def c2Store1 : Store :=
  (log_food (add_food (init_db Store.empty) "apple" 100 1 2 3 "p").2
    "2024-01-01" "apple" 2 "lunch").2

/-- Continuation of the replay: re-register "apple" with 500 kcal per
serving, replacing the row. -/
def c2Store2 : Store := (add_food c2Store1 "apple" 500 5 6 7 "p").2

/-! ### Helper lemmas -/

theorem filter_not_filter {α : Type} (q : α → Bool) (l : List α) :
    (l.filter (fun x => !(q x))).filter q = [] := by
  induction l with
  | nil => rfl
  | cons a l ih =>
      by_cases h : q a = true <;> simp [List.filter_cons, h, ih]

theorem find?_filter_not {α : Type} (q : α → Bool) (l : List α) :
    (l.filter (fun x => !(q x))).find? q = none := by
  rw [List.find?_eq_none]
  intro x hx
  have hq := (List.mem_filter.mp hx).2
  simp only [Bool.not_eq_true'] at hq
  simp [hq]

theorem find?_append_none {α : Type} (p : α → Bool) (l1 l2 : List α)
    (h : l1.find? p = none) : (l1 ++ l2).find? p = l2.find? p := by
  induction l1 with
  | nil => rfl
  | cons a l ih =>
      cases hpa : p a
      · simp only [List.cons_append, List.find?_cons, hpa]
        simp only [List.find?_cons, hpa] at h
        exact ih h
      · simp only [List.find?_cons, hpa] at h
        cases h

theorem mem_joinDate {s : Store} {d : String} {r : LogRow × FoodRow}
    (h : r ∈ joinDate s d) :
    r.1 ∈ s.logs ∧ r.1.log_date = d ∧ r.2 ∈ s.foods ∧ r.2.id = r.1.food_id := by
  unfold joinDate at h
  rcases List.mem_flatMap.mp h with ⟨l, hl, hr⟩
  rcases List.mem_filter.mp hl with ⟨hls, hld⟩
  rcases List.mem_map.mp hr with ⟨f, hf, heq⟩
  rcases List.mem_filter.mp hf with ⟨hfs, hfid⟩
  subst heq
  exact ⟨hls, by simpa using hld, hfs, by simpa using hfid⟩

theorem joinDate_drop_log (s : Store) (pre post : List LogRow) (l : LogRow)
    (d : String) (hs : s.logs = pre ++ l :: post)
    (h : s.foods.filter (fun fr => fr.id == l.food_id) = []) :
    joinDate s d = joinDate { s with logs := pre ++ post } d := by
  show (s.logs.filter (fun x => x.log_date == d)).flatMap _
      = ((pre ++ post).filter (fun x => x.log_date == d)).flatMap _
  rw [hs, List.filter_append, List.filter_cons, List.filter_append]
  by_cases hd : l.log_date = d
  · simp only [hd]
    rw [if_pos (by simp)]
    rw [List.flatMap_append, List.flatMap_append, List.flatMap_cons]
    show _ ++ ((s.foods.filter (fun fr => fr.id == l.food_id)).map _ ++ _) = _
    rw [h]
    simp
  · rw [if_neg (by simpa using hd)]

theorem joinDate_drop_date (s : Store) (pre post : List LogRow) (l : LogRow)
    (d : String) (hs : s.logs = pre ++ l :: post) (hd : l.log_date ≠ d) :
    joinDate s d = joinDate { s with logs := pre ++ post } d := by
  show (s.logs.filter (fun x => x.log_date == d)).flatMap _
      = ((pre ++ post).filter (fun x => x.log_date == d)).flatMap _
  rw [hs, List.filter_append, List.filter_cons, List.filter_append,
    if_neg (by simpa using hd)]

theorem get_meals_result (s : Store) (today d : String) (hd : d ≠ "") :
    (get_meals s today (some d)).1 = ⟨d, buildMeals (joinDate s d)⟩ := by
  have hb : (d == "") = false := by simpa using hd
  simp [get_meals, hb]

theorem get_meals_congr (s1 s2 : Store) (today : String) (ds : Option String)
    (hj : ∀ d, joinDate s1 d = joinDate s2 d) :
    (get_meals s1 today ds).1 = (get_meals s2 today ds).1 := by
  cases ds with
  | none =>
      show (⟨today, buildMeals (joinDate s1 today)⟩ : GetMealsResult)
          = (⟨today, buildMeals (joinDate s2 today)⟩ : GetMealsResult)
      rw [hj today]
  | some dd =>
      show (⟨if (dd == "") = true then today else dd,
            buildMeals (joinDate s1 (if (dd == "") = true then today else dd))⟩
              : GetMealsResult)
          = (⟨if (dd == "") = true then today else dd,
            buildMeals (joinDate s2 (if (dd == "") = true then today else dd))⟩
              : GetMealsResult)
      rw [hj (if (dd == "") = true then today else dd)]

theorem today_summary_congr (s1 s2 : Store) (today : String)
    (hg : s1.goals = s2.goals) (hj : joinDate s1 today = joinDate s2 today) :
    (today_summary s1 today).1 = (today_summary s2 today).1 := by
  unfold today_summary
  rw [hj, hg]
  cases List.find? (fun g => g.id == 1) s2.goals <;> rfl

theorem today_summary_result (s : Store) (today : String) (g : GoalRow)
    (hg : s.goals.find? (fun r => r.id == 1) = some g) :
    (today_summary s today).1
      = some ⟨sumTotals (joinDate s today), g.daily_calories,
          (g.daily_calories : Rat) - (sumTotals (joinDate s today)).calories⟩ := by
  unfold today_summary
  rw [hg]

theorem sumTotals_eq (rows : List (LogRow × FoodRow)) :
    sumTotals rows
      = ⟨caloriesSum rows, proteinSum rows, carbsSum rows, fatSum rows⟩ := by
  have hgen : ∀ (rs : List (LogRow × FoodRow)) (t : Totals),
      rs.foldl (fun t r =>
        (⟨t.calories + (r.2.calories : Rat) * r.1.quantity,
          t.protein + r.2.protein * r.1.quantity,
          t.carbs + r.2.carbs * r.1.quantity,
          t.fat + r.2.fat * r.1.quantity⟩ : Totals)) t
        = ⟨t.calories + caloriesSum rs, t.protein + proteinSum rs,
           t.carbs + carbsSum rs, t.fat + fatSum rs⟩ := by
    intro rs
    induction rs with
    | nil =>
        intro t
        cases t
        simp [caloriesSum, proteinSum, carbsSum, fatSum]
    | cons r rs ih =>
        intro t
        rw [List.foldl_cons, ih]
        simp only [caloriesSum, proteinSum, carbsSum, fatSum, List.map_cons,
          List.sum_cons]
        congr 1 <;> ring
  have h0 := hgen rows ⟨0, 0, 0, 0⟩
  simpa [sumTotals] using h0

theorem insertEntry_keys (gs : List (String × List EntryView)) (k : String)
    (e : EntryView) :
    (insertEntry gs k e).map Prod.fst
      = if k ∈ gs.map Prod.fst then gs.map Prod.fst
        else gs.map Prod.fst ++ [k] := by
  induction gs with
  | nil => simp [insertEntry]
  | cons g gs ih =>
      obtain ⟨k0, es⟩ := g
      by_cases h : k0 = k
      · subst h
        simp [insertEntry]
      · have hb : (k0 == k) = false := by simp [h]
        by_cases hm : k ∈ gs.map Prod.fst
        · simp [insertEntry, hb, ih, hm, Ne.symm h]
        · simp [insertEntry, hb, ih, hm, Ne.symm h]

theorem groupEntries_insertEntry (gs : List (String × List EntryView))
    (k kq : String) (e : EntryView) :
    groupEntries (insertEntry gs k e) kq
      = if kq = k then groupEntries gs k ++ [e]
        else groupEntries gs kq := by
  induction gs with
  | nil =>
      by_cases h : kq = k
      · subst h
        simp [insertEntry, groupEntries]
      · simp [insertEntry, groupEntries, h, Ne.symm h]
  | cons g gs ih =>
      obtain ⟨k0, es⟩ := g
      by_cases h0 : k0 = k
      · by_cases hq : kq = k
        · simp [insertEntry, groupEntries, h0, hq]
        · have hk0q : ¬ k0 = kq := fun hh => hq (hh.symm.trans h0)
          have hkq2 : ¬ k = kq := fun hh => hq hh.symm
          simp [insertEntry, groupEntries, h0, hq, hk0q, hkq2]
      · by_cases hq : kq = k0
        · have hqk : ¬ kq = k := fun hh => h0 (hq.symm.trans hh)
          simp [insertEntry, groupEntries, h0, hq, hqk]
        · have hk0q : ¬ k0 = kq := fun hh => hq hh.symm
          simp [insertEntry, groupEntries, h0, hk0q, ih]

theorem groupEntries_foldInsert (rows : List (LogRow × FoodRow)) :
    ∀ (gs : List (String × List EntryView)) (k : String),
      groupEntries (rows.foldl (fun a r =>
          insertEntry a (mealKey r.1.meal) (entryView r.1 r.2)) gs) k
        = groupEntries gs k
          ++ (rows.filter (fun r => mealKey r.1.meal == k)).map
              (fun r => entryView r.1 r.2) := by
  induction rows with
  | nil => intro gs k; simp
  | cons r rows ih =>
      intro gs k
      rw [List.foldl_cons, ih, groupEntries_insertEntry, List.filter_cons]
      by_cases h : mealKey r.1.meal = k
      · rw [h]
        simp [List.append_assoc]
      · have hb : (mealKey r.1.meal == k) = false := by simp [h]
        rw [if_neg (fun he => h he.symm), hb]
        simp

theorem keys_foldInsert (rows : List (LogRow × FoodRow)) :
    ∀ gs : List (String × List EntryView),
      ((rows.foldl (fun a r =>
          insertEntry a (mealKey r.1.meal) (entryView r.1 r.2)) gs).map Prod.fst)
        = firstOccur (gs.map Prod.fst) (rows.map (fun r => mealKey r.1.meal)) := by
  induction rows with
  | nil => intro gs; rfl
  | cons r rows ih =>
      intro gs
      rw [List.foldl_cons, ih, List.map_cons]
      simp only [firstOccur]
      rw [insertEntry_keys]

theorem firstOccur_nodup (l : List String) :
    ∀ acc, acc.Nodup → (firstOccur acc l).Nodup := by
  induction l with
  | nil => intro acc h; exact h
  | cons k ks ih =>
      intro acc h
      simp only [firstOccur]
      by_cases hk : k ∈ acc
      · rw [if_pos hk]
        exact ih acc h
      · rw [if_neg hk]
        refine ih _ ?_
        simp [List.nodup_append, h, hk]

theorem groupEntries_of_mem (gs : List (String × List EntryView))
    (hnd : (gs.map Prod.fst).Nodup) (g : String × List EntryView)
    (hg : g ∈ gs) : groupEntries gs g.1 = g.2 := by
  induction gs with
  | nil => cases hg
  | cons g0 gs ih =>
      obtain ⟨k0, es0⟩ := g0
      rw [List.map_cons, List.nodup_cons] at hnd
      rcases List.mem_cons.mp hg with h | h
      · subst h
        simp [groupEntries]
      · have hk : k0 ≠ g.1 := by
          intro he
          apply hnd.1
          rw [he]
          exact List.mem_map.mpr ⟨g, h, rfl⟩
        simp [groupEntries, hk, ih hnd.2 h]

theorem insertEntry_nonempty (gs : List (String × List EntryView)) (k : String)
    (e : EntryView) (h : ∀ g ∈ gs, g.2 ≠ []) :
    ∀ g ∈ insertEntry gs k e, g.2 ≠ [] := by
  induction gs with
  | nil =>
      intro g hg
      have hg2 : g = (k, [e]) := by simpa [insertEntry] using hg
      rw [hg2]
      simp
  | cons g0 gs ih =>
      obtain ⟨k0, es⟩ := g0
      intro g hg
      by_cases h0 : (k0 == k) = true
      · rw [insertEntry, if_pos h0] at hg
        rcases List.mem_cons.mp hg with hh | hh
        · rw [hh]
          have := h (k0, es) (List.mem_cons_self _ _)
          simpa using this
        · exact h g (List.mem_cons_of_mem _ hh)
      · rw [insertEntry, if_neg h0] at hg
        rcases List.mem_cons.mp hg with hh | hh
        · rw [hh]
          exact h (k0, es) (List.mem_cons_self _ _)
        · exact ih (fun g2 hg2 => h g2 (List.mem_cons_of_mem _ hg2)) g hh

theorem foldInsert_nonempty (rows : List (LogRow × FoodRow)) :
    ∀ gs, (∀ g ∈ gs, g.2 ≠ []) →
      ∀ g ∈ rows.foldl (fun a r =>
          insertEntry a (mealKey r.1.meal) (entryView r.1 r.2)) gs, g.2 ≠ [] := by
  induction rows with
  | nil => intro gs h; exact h
  | cons r rows ih =>
      intro gs h
      rw [List.foldl_cons]
      exact ih _ (insertEntry_nonempty _ _ _ h)

theorem exists_group_of_groupEntries (gs : List (String × List EntryView))
    (k : String) (h : groupEntries gs k ≠ []) :
    ∃ g ∈ gs, g.1 = k ∧ g.2 = groupEntries gs k := by
  induction gs with
  | nil => exact absurd rfl h
  | cons g0 gs ih =>
      obtain ⟨k0, es⟩ := g0
      by_cases h0 : (k0 == k) = true
      · refine ⟨(k0, es), List.mem_cons_self _ _, by simpa using h0, ?_⟩
        simp [groupEntries, h0]
      · rw [groupEntries, if_neg h0] at h ⊢
        rcases ih h with ⟨g, hgmem, hgk, hge⟩
        exact ⟨g, List.mem_cons_of_mem _ hgmem, hgk, hge⟩

/-! ### Claims -/

/-- Claim C8, counterexample: two `add_food` calls differing only in the
nutrient values return identical results, so the result cannot report the
nutrient values just written — it reports only the name (and status / path). -/
theorem C8_result_counterexample :
    (add_food Store.empty "apple" 100 1 2 3 "/data/nutrition.db").1
      = (add_food Store.empty "apple" 999 9 9 9 "/data/nutrition.db").1 := rfl

/-- Claim C8, amended: `add_food` returns status `"ok"`, the food name and the
database path; the nutrient values are not echoed back. -/
theorem C8_add_food_result (s : Store) (n : String) (c : Int) (p cb f : Rat)
    (dp : String) : (add_food s n c p cb f dp).1 = ⟨"ok", n, dp⟩ := rfl

/-- Claim C9: calling `get_meals` with the empty string behaves exactly as
calling it with the date absent — the result is for today's date. -/
theorem C9_empty_date_string (s : Store) (today : String) :
    get_meals s today (some "") = get_meals s today none ∧
    (get_meals s today (some "")).1.date = today := by
  constructor <;> rfl

/-- Claim C10: `get_meals` and `today_summary` are read-only — the store after
either call is exactly the store before it. -/
theorem C10_read_only (s : Store) (today : String) (ds : Option String) :
    (get_meals s today ds).2 = s ∧ (today_summary s today).2 = s := by
  refine ⟨rfl, ?_⟩
  unfold today_summary
  cases s.goals.find? (fun g => g.id == 1) <;> rfl

/-- Claim C3: `log_food` on an unknown name returns the structured error
result and leaves the store untouched; on a known name it appends exactly one
log row carrying the resolved food's id, today's date, and the given quantity
and meal, and returns the ok result with those fields. -/
theorem C3_log_food (s : Store) (today n : String) (q : Rat) (m : String) :
    ((∀ fr ∈ s.foods, fr.name ≠ n) →
        log_food s today n q m = (.err "Food not found", s)) ∧
    (∀ fr, findFood s.foods n = some fr →
        (log_food s today n q m).1 = .ok n q m ∧
        (log_food s today n q m).1.status = "ok" ∧
        (log_food s today n q m).2 =
          { s with
              logs := s.logs ++ [⟨s.next_log_id, fr.id, q, today, some m⟩],
              next_log_id := s.next_log_id + 1 }) := by
  constructor
  · intro h
    have hnone : findFood s.foods n = none := by
      unfold findFood
      rw [List.find?_eq_none]
      intro fr hfr
      simpa using h fr hfr
    unfold log_food
    rw [hnone]
  · intro fr hfr
    unfold log_food
    rw [hfr]
    exact ⟨rfl, rfl, rfl⟩

/-- Claim C3 witness: on the concrete store, logging an unknown food errors
and writes nothing, while logging the known food succeeds. -/
theorem C3_log_food_witness :
    log_food wStore "2024-01-01" "pear" (1 : Rat) "lunch"
        = (.err "Food not found", wStore) ∧
    (log_food wStore "2024-01-01" "apple" (2 : Rat) "dinner").1
        = .ok "apple" 2 "dinner" := by
  refine ⟨(C3_log_food wStore "2024-01-01" "pear" 1 "lunch").1 ?_, ?_⟩
  · decide
  · exact ((C3_log_food wStore "2024-01-01" "apple" 2 "dinner").2
      ⟨1, "apple", 100, 1, 2, 3⟩ (by decide)).1

/-- Claim C6: the Goal row is a singleton and every operation preserves it —
`init_db` on an empty store inserts exactly the default row `(1, 2000)`, is
idempotent, and never overwrites an existing row (in particular not after
`set_daily_calorie_goal`); `set_daily_calorie_goal` overwrites the single row
in place without creating a second one; the other operations leave `goals`
unchanged. -/
theorem C6_goal_singleton (s0 s : Store) (c cNew : Int)
    (h0 : s0.goals = []) (h : s.goals = [⟨1, c⟩]) :
    (init_db s0).goals = [⟨1, 2000⟩] ∧
    init_db (init_db s0) = init_db s0 ∧
    init_db s = s ∧
    (set_daily_calorie_goal s cNew).2.goals = [⟨1, cNew⟩] ∧
    init_db (set_daily_calorie_goal s cNew).2
      = (set_daily_calorie_goal s cNew).2 ∧
    (∀ n ca p cb f dp, ((add_food s n ca p cb f dp).2).goals = s.goals) ∧
    (∀ today n q m, ((log_food s today n q m).2).goals = s.goals) := by
  refine ⟨?_, ?_, ?_, ?_, ?_, ?_, ?_⟩
  · simp [init_db, h0]
  · simp [init_db, h0]
  · simp [init_db, h]
  · simp [set_daily_calorie_goal, h]
  · simp [init_db, set_daily_calorie_goal, h]
  · intro n ca p cb f dp
    rfl
  · intro today n q m
    unfold log_food
    cases findFood s.foods n <;> rfl

/-- Claim C6 witness: concrete run — initialize an empty store, set the goal
to 1500, re-initialize; the single row survives with value 1500. -/
theorem C6_goal_singleton_witness :
    (init_db Store.empty).goals = [⟨1, 2000⟩] ∧
    (set_daily_calorie_goal (init_db Store.empty) 1500).2.goals
      = [⟨1, 1500⟩] ∧
    init_db (set_daily_calorie_goal (init_db Store.empty) 1500).2
      = (set_daily_calorie_goal (init_db Store.empty) 1500).2 := by
  have h := C6_goal_singleton Store.empty (init_db Store.empty) 2000 1500
    (by decide) (by decide)
  exact ⟨h.1, h.2.2.2.1, h.2.2.2.2.1⟩

/-- Claim C1, counterexample: adding "apple" assigns id 1; re-adding it with
new macros leaves one row, but `INSERT OR REPLACE` deletes the old row and the
fresh insert gets autoincrement id 2 — the surrogate id is not stable across
the upsert. -/
theorem C1_id_counterexample :
    (add_food Store.empty "apple" 100 1 2 3 "p").2.foods.map
        (fun x => (x.id, x.name)) = [(1, "apple")] ∧
    (add_food (add_food Store.empty "apple" 100 1 2 3 "p").2
        "apple" 200 4 5 6 "p").2.foods.map
        (fun x => (x.id, x.name)) = [(2, "apple")] := by
  constructor <;> decide

/-- Claim C1, amended: re-adding a stored name leaves exactly one Food row
under that name carrying the new nutrient values, but that row's id is a
freshly assigned autoincrement id, different from the id the food had before
the call. -/
theorem C1_upsert_fresh_id (s : Store) (old : FoodRow) (n : String)
    (c : Int) (p cb f : Rat) (dp : String)
    (h : s.foods.filter (fun x => x.name == n) = [old])
    (hid : old.id ≠ s.next_food_id) :
    (add_food s n c p cb f dp).2.foods.filter (fun x => x.name == n)
        = [⟨s.next_food_id, n, c, p, cb, f⟩] ∧
    (⟨s.next_food_id, n, c, p, cb, f⟩ : FoodRow).id ≠ old.id := by
  constructor
  · have key : (s.foods.filter (fun x => x.name != n)).filter
        (fun x => x.name == n) = [] := by
      have hn := filter_not_filter (fun x : FoodRow => x.name == n) s.foods
      simpa [bne] using hn
    simp [add_food, List.filter_append, key]
  · exact hid.symm

/-- Claim C1 witness: on the concrete store the stored "apple" has id 1, and
after the second `add_food` the single surviving row has id 2 and the new
macros. -/
theorem C1_upsert_fresh_id_witness :
    wStore.foods.filter (fun x => x.name == "apple")
        = [⟨1, "apple", 100, 1, 2, 3⟩] ∧
    (add_food wStore "apple" 250 10 20 30 "q").2.foods.filter
        (fun x => x.name == "apple") = [⟨2, "apple", 250, 10, 20, 30⟩] ∧
    (2 : Nat) ≠ 1 := by
  have h := C1_upsert_fresh_id wStore ⟨1, "apple", 100, 1, 2, 3⟩ "apple"
    250 10 20 30 "q" (by decide) (by decide)
  exact ⟨by decide, h.1, h.2⟩

/-- Claim C2, counterexample: with 2 servings of "apple" (100 kcal) logged on
2024-01-01, re-registering "apple" at 500 kcal does not make the logged entry
report the new values — the replacement row has a fresh id, the old entry
references the deleted id, and the join drops it: `get_meals` returns no
groups at all and `today_summary` totals are zero, not the new 1000. -/
theorem C2_retroactive_counterexample :
    (get_meals c2Store1 "x" (some "2024-01-01")).1.meals
      = [("lunch", [⟨1, "apple", 2, 100, 1, 2, 3, 200⟩])] ∧
    (get_meals c2Store2 "x" (some "2024-01-01")).1.meals = [] ∧
    (today_summary c2Store2 "2024-01-01").1
      = some ⟨⟨0, 0, 0, 0⟩, 2000, 2000⟩ := by
  refine ⟨?_, by decide, ?_⟩
  · have h1 : c2Store1 = ⟨[⟨1, "apple", 100, 1, 2, 3⟩],
        [⟨1, 1, 2, "2024-01-01", some "lunch"⟩], [⟨1, 2000⟩], 2, 2⟩ := by decide
    rw [h1, get_meals_result _ _ _ (by decide)]
    show buildMeals (joinDate _ _) = _
    simp [joinDate, buildMeals, insertEntry, entryView, mealKey]
    norm_num
  · norm_num [c2Store2, c2Store1, today_summary, add_food, log_food, init_db,
      findFood, Store.empty, joinDate, sumTotals]

/-- Claim C2, amended: when `add_food` replaces the macros of a stored food,
the replacement row gets a fresh id, so LogEntry rows logged earlier reference
the deleted row's id and are silently dropped from `get_meals` and
`today_summary` (removing such an entry from the store changes neither
result); name lookups afterwards resolve to the fresh row carrying the new
values, so only entries logged after the update report them. -/
theorem C2_upsert_orphans_logs (s : Store) (old : FoodRow) (n : String)
    (c : Int) (p cb f : Rat) (dp : String) (l : LogRow)
    (pre post : List LogRow) (today : String) (ds : Option String)
    (hufid : ∀ fr ∈ s.foods, fr.id = old.id → fr.name = n)
    (hfresh : old.id ≠ s.next_food_id)
    (hs : s.logs = pre ++ l :: post)
    (hl : l.food_id = old.id) :
    findFood (add_food s n c p cb f dp).2.foods n
        = some ⟨s.next_food_id, n, c, p, cb, f⟩ ∧
    (∀ d, ∀ r ∈ joinDate (add_food s n c p cb f dp).2 d, r.1 ≠ l) ∧
    (get_meals (add_food s n c p cb f dp).2 today ds).1
      = (get_meals { (add_food s n c p cb f dp).2 with logs := pre ++ post }
          today ds).1 ∧
    (today_summary (add_food s n c p cb f dp).2 today).1
      = (today_summary { (add_food s n c p cb f dp).2 with logs := pre ++ post }
          today).1 := by
  have hnomem : ∀ fr ∈ (add_food s n c p cb f dp).2.foods, fr.id ≠ old.id := by
    intro fr hfr
    have hfr2 : fr ∈ s.foods.filter (fun x => x.name != n)
        ++ [⟨s.next_food_id, n, c, p, cb, f⟩] := hfr
    rcases List.mem_append.mp hfr2 with hmem | hmem
    · rcases List.mem_filter.mp hmem with ⟨hm, hnb⟩
      intro hideq
      have hnn : fr.name = n := hufid fr hm hideq
      simp [bne, hnn] at hnb
    · have hfr3 : fr = ⟨s.next_food_id, n, c, p, cb, f⟩ := by simpa using hmem
      rw [hfr3]
      exact fun he => hfresh he.symm
  have hnof : (add_food s n c p cb f dp).2.foods.filter
      (fun fr => fr.id == l.food_id) = [] := by
    rw [List.filter_eq_nil_iff]
    intro fr hfr
    simp only [beq_iff_eq, hl]
    exact hnomem fr hfr
  have hlogs : (add_food s n c p cb f dp).2.logs = pre ++ l :: post := hs
  have hjoin : ∀ d, joinDate (add_food s n c p cb f dp).2 d
      = joinDate { (add_food s n c p cb f dp).2 with logs := pre ++ post } d :=
    fun d => joinDate_drop_log _ pre post l d hlogs hnof
  refine ⟨?_, ?_, ?_, ?_⟩
  · have hsplit : (add_food s n c p cb f dp).2.foods
        = s.foods.filter (fun x => x.name != n)
          ++ [⟨s.next_food_id, n, c, p, cb, f⟩] := rfl
    unfold findFood
    rw [hsplit, find?_append_none _ _ _ (by
      have hfn := find?_filter_not (fun x : FoodRow => x.name == n) s.foods
      simpa [bne] using hfn)]
    simp [List.find?_cons]
  · intro d r hr he
    rcases mem_joinDate hr with ⟨-, -, hf2, hid2⟩
    have hid3 : r.2.id = old.id := by rw [hid2, he, hl]
    exact hnomem r.2 hf2 hid3
  · exact get_meals_congr _ _ today ds hjoin
  · exact today_summary_congr _ _ today rfl (hjoin today)

/-- Claim C2 witness: the concrete replay — after replacing "apple", lookups
resolve to the fresh row (id 2, 500 kcal), no joined row for any date comes
from the old entry, and dropping the old entry changes neither `get_meals`
nor `today_summary`. -/
theorem C2_upsert_orphans_logs_witness :
    findFood c2Store2.foods "apple" = some ⟨2, "apple", 500, 5, 6, 7⟩ ∧
    (∀ d, ∀ r ∈ joinDate c2Store2 d,
        r.1 ≠ ⟨1, 1, 2, "2024-01-01", some "lunch"⟩) ∧
    (get_meals c2Store2 "2024-01-05" (some "2024-01-01")).1
      = (get_meals { c2Store2 with logs := [] ++ [] } "2024-01-05"
          (some "2024-01-01")).1 ∧
    (today_summary c2Store2 "2024-01-01").1
      = (today_summary { c2Store2 with logs := [] ++ [] } "2024-01-01").1 :=
  C2_upsert_orphans_logs c2Store1 ⟨1, "apple", 100, 1, 2, 3⟩ "apple"
    500 5 6 7 "p" ⟨1, 1, 2, "2024-01-01", some "lunch"⟩ [] [] "2024-01-05"
    (some "2024-01-01") (by decide) (by decide) (by decide) rfl

/-- Claim C7: aggregation is date-scoped — no joined row for date d2 carries a
different date d1, and an entry dated d1 contributes nothing to
`get_meals(d2)` or to `today_summary` when today differs from d1: removing it
from the store changes neither result. -/
theorem C7_date_scoping (s : Store) (today d1 d2 : String) (l : LogRow)
    (pre post : List LogRow)
    (hs : s.logs = pre ++ l :: post) (hd1 : l.log_date = d1)
    (h12 : d1 ≠ d2) (hd2e : d2 ≠ "") (hdt : d1 ≠ today) :
    (∀ r ∈ joinDate s d2, r.1.log_date ≠ d1) ∧
    (get_meals s today (some d2)).1
      = (get_meals { s with logs := pre ++ post } today (some d2)).1 ∧
    (today_summary s today).1
      = (today_summary { s with logs := pre ++ post } today).1 := by
  have hj2 : joinDate s d2 = joinDate { s with logs := pre ++ post } d2 :=
    joinDate_drop_date s pre post l d2 hs (by rw [hd1]; exact h12)
  have hjt : joinDate s today = joinDate { s with logs := pre ++ post } today :=
    joinDate_drop_date s pre post l today hs (by rw [hd1]; exact hdt)
  refine ⟨?_, ?_, ?_⟩
  · intro r hr
    rw [(mem_joinDate hr).2.1]
    exact fun he => h12 he.symm
  · rw [get_meals_result s today d2 hd2e, get_meals_result _ today d2 hd2e, hj2]
  · exact today_summary_congr _ _ today rfl hjt

/-- Claim C7 witness: the lunch entry logged for 2024-01-01 contributes
nothing to `get_meals("2024-01-02")` or to a summary taken on 2024-03-05. -/
theorem C7_date_scoping_witness :
    (∀ r ∈ joinDate c2Store1 "2024-01-02", r.1.log_date ≠ "2024-01-01") ∧
    (get_meals c2Store1 "2024-03-05" (some "2024-01-02")).1
      = (get_meals { c2Store1 with logs := [] ++ [] } "2024-03-05"
          (some "2024-01-02")).1 ∧
    (today_summary c2Store1 "2024-03-05").1
      = (today_summary { c2Store1 with logs := [] ++ [] } "2024-03-05").1 :=
  C7_date_scoping c2Store1 "2024-03-05" "2024-01-01" "2024-01-02"
    ⟨1, 1, 2, "2024-01-01", some "lunch"⟩ [] [] (by decide) rfl
    (by decide) (by decide) (by decide)

/-- Claim C4: `today_summary` returns, for each macro field, the sum of
`food_field * quantity` over exactly the log rows dated today joined to their
food, and `remaining_calories = goal - totals.calories` with no clamping;
when no log row matches today all totals are zero and the remaining calories
equal the stored goal. -/
theorem C4_today_summary_totals (s : Store) (today : String) (g : GoalRow)
    (hg : s.goals.find? (fun r => r.id == 1) = some g) :
    (today_summary s today).1
      = some ⟨⟨caloriesSum (joinDate s today), proteinSum (joinDate s today),
               carbsSum (joinDate s today), fatSum (joinDate s today)⟩,
              g.daily_calories,
              (g.daily_calories : Rat) - caloriesSum (joinDate s today)⟩ ∧
    (s.logs.filter (fun l => l.log_date == today) = [] →
        (today_summary s today).1
          = some ⟨⟨0, 0, 0, 0⟩, g.daily_calories, (g.daily_calories : Rat)⟩) := by
  have hres := today_summary_result s today g hg
  constructor
  · rw [hres, sumTotals_eq]
  · intro he
    have hjd : joinDate s today = [] := by
      unfold joinDate
      rw [he]
      rfl
    rw [hres, hjd, sumTotals_eq]
    norm_num [caloriesSum, proteinSum, carbsSum, fatSum]

/-- Claim C4 witness: with 2 + 3 servings of a 100 kcal food logged for
2024-01-01, the summary for that day is 500 kcal (protein 5, carbs 10,
fat 15) with 1500 remaining; for a day with no entries everything is zero and
the full 2000 goal remains. -/
theorem C4_today_summary_totals_witness :
    (today_summary c4Store "2024-01-01").1
      = some ⟨⟨500, 5, 10, 15⟩, 2000, 1500⟩ ∧
    (today_summary c4Store "2024-03-01").1
      = some ⟨⟨0, 0, 0, 0⟩, 2000, 2000⟩ := by
  have hc : c4Store = ⟨[⟨1, "apple", 100, 1, 2, 3⟩],
      [⟨1, 1, 2, "2024-01-01", some "lunch"⟩,
       ⟨2, 1, 3, "2024-01-01", some "dinner"⟩],
      [⟨1, 2000⟩], 2, 3⟩ := by decide
  have h := C4_today_summary_totals c4Store "2024-01-01" ⟨1, 2000⟩ (by decide)
  have h2 := C4_today_summary_totals c4Store "2024-03-01" ⟨1, 2000⟩ (by decide)
  constructor
  · rw [h.1, hc]
    norm_num [joinDate, caloriesSum, proteinSum, carbsSum, fatSum]
  · rw [h2.2 (by decide)]
    norm_num

/-- Claim C5: `get_meals(d)` partitions exactly the date-d joined rows into
groups keyed by meal, mapping a null or empty meal to `"unspecified"`: the
group keys are distinct and listed in insertion order of first occurrence,
each group holds exactly the entry views of its own rows (in log order), no
group is empty, every joined row lands in the group of its meal key, and
every entry's `calories_total` equals `calories_per_serving * quantity`. -/
theorem C5_get_meals_grouping (s : Store) (today d : String) (hd : d ≠ "") :
    (get_meals s today (some d)).1.date = d ∧
    ((get_meals s today (some d)).1.meals.map Prod.fst).Nodup ∧
    (get_meals s today (some d)).1.meals.map Prod.fst
      = firstOccurrences ((joinDate s d).map (fun r => mealKey r.1.meal)) ∧
    (∀ g ∈ (get_meals s today (some d)).1.meals,
        g.2 = ((joinDate s d).filter (fun r => mealKey r.1.meal == g.1)).map
          (fun r => entryView r.1 r.2)) ∧
    (∀ g ∈ (get_meals s today (some d)).1.meals, g.2 ≠ []) ∧
    (∀ r ∈ joinDate s d, ∃ g ∈ (get_meals s today (some d)).1.meals,
        g.1 = mealKey r.1.meal ∧ entryView r.1 r.2 ∈ g.2) ∧
    (∀ g ∈ (get_meals s today (some d)).1.meals, ∀ e ∈ g.2,
        e.calories_total = (e.calories_per_serving : Rat) * e.quantity) ∧
    mealKey none = "unspecified" ∧ mealKey (some "") = "unspecified" := by
  have hres := get_meals_result s today d hd
  have hmeals : (get_meals s today (some d)).1.meals
      = buildMeals (joinDate s d) := by rw [hres]
  have hkeys : (buildMeals (joinDate s d)).map Prod.fst
      = firstOccurrences ((joinDate s d).map (fun r => mealKey r.1.meal)) := by
    unfold buildMeals firstOccurrences
    exact keys_foldInsert (joinDate s d) []
  have hnodup : ((buildMeals (joinDate s d)).map Prod.fst).Nodup := by
    rw [hkeys]
    exact firstOccur_nodup _ [] List.nodup_nil
  have hcontent : ∀ g ∈ buildMeals (joinDate s d),
      g.2 = ((joinDate s d).filter (fun r => mealKey r.1.meal == g.1)).map
        (fun r => entryView r.1 r.2) := by
    intro g hg
    have h1 : groupEntries (buildMeals (joinDate s d)) g.1 = g.2 :=
      groupEntries_of_mem _ hnodup g hg
    have h2 := groupEntries_foldInsert (joinDate s d) [] g.1
    unfold buildMeals at h1
    rw [h1] at h2
    simpa [groupEntries] using h2
  refine ⟨by rw [hres], ?_, ?_, ?_, ?_, ?_, ?_, rfl, rfl⟩
  · rw [hmeals]
    exact hnodup
  · rw [hmeals, hkeys]
  · rw [hmeals]
    exact hcontent
  · rw [hmeals]
    unfold buildMeals
    exact foldInsert_nonempty (joinDate s d) [] (by intro g hg; cases hg)
  · intro r hr
    rw [hmeals]
    have hmem : entryView r.1 r.2
        ∈ groupEntries (buildMeals (joinDate s d)) (mealKey r.1.meal) := by
      unfold buildMeals
      rw [groupEntries_foldInsert (joinDate s d) [] (mealKey r.1.meal)]
      simp only [groupEntries, List.nil_append]
      exact List.mem_map.mpr ⟨r, List.mem_filter.mpr ⟨hr, by simp⟩, rfl⟩
    have hne : groupEntries (buildMeals (joinDate s d)) (mealKey r.1.meal)
        ≠ [] := by
      intro hnil
      rw [hnil] at hmem
      cases hmem
    rcases exists_group_of_groupEntries _ _ hne with ⟨g, hgmem, hgk, hge⟩
    refine ⟨g, hgmem, hgk, ?_⟩
    rw [hge]
    exact hmem
  · rw [hmeals]
    intro g hg e he
    rw [hcontent g hg] at he
    rcases List.mem_map.mp he with ⟨r, hrmem, hre⟩
    rw [← hre]
    rfl

/-- Claim C5 witness: the grouping properties instantiated on the concrete
store with a breakfast entry and two lunch entries for 2024-01-01. -/
theorem C5_get_meals_grouping_witness :
    ("2024-01-01" : String) ≠ "" ∧
    ((get_meals c5Store "x" (some "2024-01-01")).1.date = "2024-01-01" ∧
    ((get_meals c5Store "x" (some "2024-01-01")).1.meals.map Prod.fst).Nodup ∧
    (get_meals c5Store "x" (some "2024-01-01")).1.meals.map Prod.fst
      = firstOccurrences ((joinDate c5Store "2024-01-01").map
          (fun r => mealKey r.1.meal)) ∧
    (∀ g ∈ (get_meals c5Store "x" (some "2024-01-01")).1.meals,
        g.2 = ((joinDate c5Store "2024-01-01").filter
          (fun r => mealKey r.1.meal == g.1)).map
            (fun r => entryView r.1 r.2)) ∧
    (∀ g ∈ (get_meals c5Store "x" (some "2024-01-01")).1.meals, g.2 ≠ []) ∧
    (∀ r ∈ joinDate c5Store "2024-01-01",
        ∃ g ∈ (get_meals c5Store "x" (some "2024-01-01")).1.meals,
          g.1 = mealKey r.1.meal ∧ entryView r.1 r.2 ∈ g.2) ∧
    (∀ g ∈ (get_meals c5Store "x" (some "2024-01-01")).1.meals, ∀ e ∈ g.2,
        e.calories_total = (e.calories_per_serving : Rat) * e.quantity) ∧
    mealKey none = "unspecified" ∧ mealKey (some "") = "unspecified") :=
  ⟨by decide, C5_get_meals_grouping c5Store "x" "2024-01-01" (by decide)⟩

end CalorieTracker
